import Mathlib

/-!
# Verification of the WebGL device-fingerprint procedure

This development embeds the two near-identical sources of the repository
(`src/fingerprint.ts`, typed, and `src/fp.js`, untyped) as pure Lean
functions over an explicit model of the host browser environment: the
graphics context, the canvas element, and the SHA-256 digest primitive.

The host's observable behaviour (which calls succeed, what the pixel
readback returns) is a parameter, `Host`; the embedded procedure is a
function of that parameter which returns the outcome together with the
ordered trace of host calls it performed and the console diagnostics it
emitted.  SHA-256 itself (the browser's `crypto.subtle.digest`) is
implemented executably below, following FIPS 180-4.
-/

/-! ## SHA-256 (model of the host `crypto.subtle.digest("SHA-256", ·)`) -/

namespace SHA256

/-- Right-rotation of a 32-bit word represented as a `Nat` below `2 ^ 32`. -/
def rotr (n x : Nat) : Nat :=
  ((x >>> n) ||| (x <<< (32 - n))) % 4294967296

/-- Bitwise choice: for each bit, pick from `y` where `x` is set, else from `z`. -/
def ch (x y z : Nat) : Nat :=
  (x &&& y) ^^^ ((x ^^^ 4294967295) &&& z)

/-- Bitwise majority of three 32-bit words. -/
def maj (x y z : Nat) : Nat :=
  (x &&& y) ^^^ (x &&& z) ^^^ (y &&& z)

/-- Big sigma-0 of FIPS 180-4. -/
def bsig0 (x : Nat) : Nat :=
  rotr 2 x ^^^ rotr 13 x ^^^ rotr 22 x

/-- Big sigma-1 of FIPS 180-4. -/
def bsig1 (x : Nat) : Nat :=
  rotr 6 x ^^^ rotr 11 x ^^^ rotr 25 x

/-- Small sigma-0 of FIPS 180-4. -/
def ssig0 (x : Nat) : Nat :=
  rotr 7 x ^^^ rotr 18 x ^^^ (x >>> 3)

/-- Small sigma-1 of FIPS 180-4. -/
def ssig1 (x : Nat) : Nat :=
  rotr 17 x ^^^ rotr 19 x ^^^ (x >>> 10)

/-- The 64 round constants, written in decimal. -/
def kConsts : List Nat :=
  [1116352408, 1899447441, 3049323471, 3921009573, 961987163,
   1508970993, 2453635748, 2870763221, 3624381080, 310598401,
   607225278, 1426881987, 1925078388, 2162078206, 2614888103,
   3248222580, 3835390401, 4022224774, 264347078, 604807628,
   770255983, 1249150122, 1555081692, 1996064986, 2554220882,
   2821834349, 2952996808, 3210313671, 3336571891, 3584528711,
   113926993, 338241895, 666307205, 773529912, 1294757372,
   1396182291, 1695183700, 1986661051, 2177026350, 2456956037,
   2730485921, 2820302411, 3259730800, 3345764771, 3516065817,
   3600352804, 4094571909, 275423344, 430227734, 506948616,
   659060556, 883997877, 958139571, 1322822218, 1537002063,
   1747873779, 1955562222, 2024104815, 2227730452, 2361852424,
   2428436474, 2756734187, 3204031479, 3329325298]

/-- The eight working registers of the compression function. -/
structure Regs where
  a : Nat
  b : Nat
  c : Nat
  d : Nat
  e : Nat
  f : Nat
  g : Nat
  h : Nat
deriving Repr, DecidableEq

/-- The initial hash value, written in decimal. -/
def initRegs : Regs :=
  ⟨1779033703, 3144134277, 1013904242, 2773480762,
   1359893119, 2600822924, 528734635, 1541459225⟩

/-- One round of the compression function on registers `r`, with round
constant and schedule word supplied as a pair. -/
def round (r : Regs) (kw : Nat × Nat) : Regs :=
  let t1 := (r.h + bsig1 r.e + ch r.e r.f r.g + kw.1 + kw.2) % 4294967296
  let t2 := (bsig0 r.a + maj r.a r.b r.c) % 4294967296
  ⟨(t1 + t2) % 4294967296, r.a, r.b, r.c, (r.d + t1) % 4294967296, r.e, r.f, r.g⟩

/-- The next message-schedule word from the sliding 16-word window
`[w_0, …, w_15]` (oldest first). -/
def nextWord (w : List Nat) : Nat :=
  (ssig1 (w.getD 14 0) + w.getD 9 0 + ssig0 (w.getD 1 0) + w.getD 0 0) % 4294967296

/-- Generate `n` further schedule words from the 16-word window `w`. -/
def genSchedule : Nat → List Nat → List Nat
  | 0, _ => []
  | n + 1, w =>
    let x := nextWord w
    x :: genSchedule n (w.tail ++ [x])

/-- Group bytes into big-endian 32-bit words, four bytes per word. -/
def toWords : List Nat → List Nat
  | a :: b :: c :: d :: rest =>
    (a * 16777216 + b * 65536 + c * 256 + d) % 4294967296 :: toWords rest
  | _ => []

/-- The eight-byte big-endian encoding of `n` (the padded bit length). -/
def lenBytes (n : Nat) : List Nat :=
  [n / 2 ^ 56 % 256, n / 2 ^ 48 % 256, n / 2 ^ 40 % 256, n / 2 ^ 32 % 256,
   n / 2 ^ 24 % 256, n / 2 ^ 16 % 256, n / 2 ^ 8 % 256, n % 256]

/-- FIPS 180-4 padding: a `0x80` byte, zeros to 56 mod 64, then the 64-bit
big-endian bit length. -/
def pad (msg : List Nat) : List Nat :=
  msg ++ 128 :: List.replicate ((119 - msg.length % 64) % 64) 0
      ++ lenBytes (msg.length * 8)

/-- Compress one 16-word block into the chaining registers. -/
def processBlock (r : Regs) (block : List Nat) : Regs :=
  let ws := block ++ genSchedule 48 block
  let t := (kConsts.zip ws).foldl round r
  ⟨(r.a + t.a) % 4294967296, (r.b + t.b) % 4294967296,
   (r.c + t.c) % 4294967296, (r.d + t.d) % 4294967296,
   (r.e + t.e) % 4294967296, (r.f + t.f) % 4294967296,
   (r.g + t.g) % 4294967296, (r.h + t.h) % 4294967296⟩

/-- Split a word list into 16-word blocks, with fuel bounding the number of
blocks (the word count is always enough fuel). -/
def blocksAux : Nat → List Nat → List (List Nat)
  | 0, _ => []
  | _, [] => []
  | fuel + 1, l => l.take 16 :: blocksAux fuel (l.drop 16)

/-- Split a word list into 16-word blocks. -/
def blocks (l : List Nat) : List (List Nat) :=
  blocksAux l.length l

/-- The four big-endian bytes of a 32-bit word. -/
def wordBytes (w : Nat) : List Nat :=
  [w / 16777216 % 256, w / 65536 % 256, w / 256 % 256, w % 256]

/-- The 32 digest bytes of a final register state. -/
def regsBytes (r : Regs) : List Nat :=
  wordBytes r.a ++ wordBytes r.b ++ wordBytes r.c ++ wordBytes r.d ++
  wordBytes r.e ++ wordBytes r.f ++ wordBytes r.g ++ wordBytes r.h

/-- SHA-256 digest of a byte sequence: 32 bytes, in emission order. -/
def digest (msg : List Nat) : List Nat :=
  regsBytes ((blocks (toWords (pad msg))).foldl processBlock initRegs)

end SHA256

/-! ## Hex encoding (model of `b.toString(16).padStart(2, "0")` and `join("")`) -/

/-- One byte as JavaScript renders it: base-16 digits (lowercase), left-padded
with `"0"` to two characters — the model of `b.toString(16).padStart(2, "0")`. -/
def byteToHex (b : Nat) : String :=
  let s := Nat.toDigits 16 b
  String.mk (List.replicate (2 - s.length) '0' ++ s)

/-- Concatenation of a list of strings in order with no separator — the model
of JavaScript `join("")`. -/
def joinAll : List String → String
  | [] => ""
  | s :: rest => s ++ joinAll rest

/-- The hex string of a byte list: map `byteToHex` over the bytes and join —
the model of `hashArray.map((b) => b.toString(16).padStart(2, "0")).join("")`. -/
def hexEncode (bytes : List Nat) : String :=
  joinAll (bytes.map byteToHex)

/-- Recogniser for the characters a lowercase hex string may contain. -/
def isLowerHexChar (c : Char) : Bool :=
  "0123456789abcdef".data.elem c

/-! ## The host environment model

The browser supplies the graphics context and the canvas; the embedded
procedure is parametrised by a `Host` describing that environment's
observable behaviour.  Handles returned by the host (`WebGLShader`,
`WebGLProgram`, `WebGLBuffer`, `WebGLUniformLocation`) are nullable; a
`none` from the host models the corresponding JavaScript `null`. -/

/-- The two shader stages, standing for the `gl.VERTEX_SHADER` and
`gl.FRAGMENT_SHADER` type constants passed to `createShader`. -/
inductive ShaderStage where
  | vertex
  | fragment
deriving Repr, DecidableEq

/-- The WebGL enum value `gl.TRIANGLES`. -/
def TRIANGLES : Nat := 4

/-- The WebGL enum value `gl.RGBA`. -/
def RGBA : Nat := 6408

/-- The WebGL enum value `gl.UNSIGNED_BYTE`. -/
def UNSIGNED_BYTE : Nat := 5121

/-- A canvas element: the drawing-buffer dimensions `width`/`height` and the
four CSS style properties the source assigns.  CSS styles are strings and are
distinct state from the drawing-buffer dimensions. -/
structure Canvas where
  width : Nat
  height : Nat
  stylePosition : String
  styleTop : String
  styleWidth : String
  styleHeight : String
deriving Repr, DecidableEq

/-- The observable behaviour of the host browser for one run: which host
calls yield a (non-null) object, the status flags and info logs the context
reports, and what `readPixels` leaves in the destination buffer.  The
drawing-buffer dimensions of the canvas `document.createElement("canvas")`
returns are host state too (a real browser creates it 300×150; a mock may
use 1×1). -/
structure Host where
  canvasWidth : Nat
  canvasHeight : Nat
  webglSupported : Bool
  createShaderOk : ShaderStage → Bool
  compileStatus : ShaderStage → Bool
  shaderInfoLog : ShaderStage → String
  createProgramResult : Option Unit
  linkStatus : Bool
  programInfoLog : String
  createBufferResult : Option Unit
  attribLocation : Int
  uniformLocationResult : Option Unit
  readPixelsFill : Nat → Nat → Nat → Nat → List Nat → List Nat

/-- One observable host call made by the procedure, with the arguments that
identify it. -/
inductive Event where
  | evCreateElementCanvas
  | evGetContext (kind : String)
  | evCreateShader (t : ShaderStage)
  | evShaderSource (t : ShaderStage) (src : String)
  | evCompileShader (t : ShaderStage)
  | evDeleteShader (t : ShaderStage)
  | evCreateProgram
  | evAttachShader (t : ShaderStage)
  | evLinkProgram
  | evUseProgram
  | evCreateBuffer
  | evBindBuffer
  | evBufferData (vertices : List Int)
  | evGetAttribLocation (name : String)
  | evEnableVertexAttribArray (loc : Int)
  | evVertexAttribPointer
  | evGetUniformLocation (name : String)
  | evUniform4f (r g b a : Nat)
  | evClearColor (r g b a : Nat)
  | evClear
  | evDrawArrays (mode first count : Nat)
  | evNewPixelBuffer (len : Nat)
  | evReadPixels (x y w h fmt ty : Nat)
  | evDigest (algo : String) (data : List Nat)
deriving Repr, DecidableEq

/-- Whether an event is a call into the shader pipeline (create, source,
compile, delete, program create/attach/link/use). -/
def Event.isShaderCall : Event → Bool
  | .evCreateShader _ | .evShaderSource _ _ | .evCompileShader _
  | .evDeleteShader _ | .evCreateProgram | .evAttachShader _
  | .evLinkProgram | .evUseProgram => true
  | _ => false

/-- Whether an event is the draw call. -/
def Event.isDraw : Event → Bool
  | .evDrawArrays _ _ _ => true
  | _ => false

/-- Whether an event is the pixel readback. -/
def Event.isReadPixels : Event → Bool
  | .evReadPixels _ _ _ _ _ _ => true
  | _ => false

/-- Whether an event is the digest (hash) call. -/
def Event.isDigest : Event → Bool
  | .evDigest _ _ => true
  | _ => false

/-- Whether an event is a context request. -/
def Event.isGetContext : Event → Bool
  | .evGetContext _ => true
  | _ => false

/-- A JavaScript-level failure of the run: an explicit `throw new Error(msg)`,
or the use of a null handle where the code assumed (without checking) that the
host had returned a non-null one — the latter is modelled as a fault at the
named consuming call. -/
inductive JsError where
  | thrown (msg : String)
  | nullMisuse (site : String)
deriving Repr, DecidableEq

deriving instance DecidableEq for Except

/-- The outcome of one run: the settled value of the returned promise, the
ordered trace of host calls performed, and the console diagnostics emitted. -/
structure RunResult where
  result : Except JsError String
  events : List Event
  logs : List String
deriving Repr, DecidableEq

/-- The result of modelling `document.createElement("canvas")` on a host:
a canvas with the host's drawing-buffer dimensions and empty styles. -/
def createElementCanvas (host : Host) : Canvas :=
  ⟨host.canvasWidth, host.canvasHeight, "", "", "", ""⟩

/-! ## Embedding of `src/fingerprint.ts` -/

namespace Fingerprint

/-- The vertex shader source constant of `src/fingerprint.ts`. -/
def vertexShaderSource : String :=
  "\n  attribute vec2 aVertexPosition;\n  void main() \x7b\n    gl_Position = vec4(aVertexPosition, 0, 1);\n  \x7d\n"

/-- The fragment shader source constant of `src/fingerprint.ts`. -/
def fragmentShaderSource : String :=
  "\n  precision mediump float;\n  uniform vec4 uColor;\n  void main() \x7b\n    gl_FragColor = uColor;\n  \x7d\n"

/-- Embedding of `createShader` (`src/fingerprint.ts:18-41`): ask the host
for a shader object of the given type; on `null`, log and return `null`.
Otherwise submit the source, compile, and consult the compile-status flag;
on failure log the stage's info log, delete the shader, and return `null`.
The returned handle carries its stage; alongside it are the host calls made
and the console diagnostics emitted. -/
def createShader (host : Host) (t : ShaderStage) (source : String) :
    Option ShaderStage × List Event × List String :=
  if host.createShaderOk t = false then
    (none, [.evCreateShader t], ["Error creating shader."])
  else if host.compileStatus t then
    (some t, [.evCreateShader t, .evShaderSource t source, .evCompileShader t], [])
  else
    (none,
     [.evCreateShader t, .evShaderSource t source, .evCompileShader t, .evDeleteShader t],
     ["An error occurred compiling the shaders: " ++ host.shaderInfoLog t])

/-- Embedding of `createShaderProgram` (`src/fingerprint.ts:44-78`): build
both stage shaders (both calls happen before the null test), return `null`
if either is `null`; otherwise create a program — the source asserts the
result non-null (`gl.createProgram()!`) and attaches to it unchecked, so a
`null` program is modelled as a fault at `attachShader` — attach both
shaders, link, and consult the link-status flag; on failure log the program
info log and return `null`. -/
def createShaderProgram (host : Host) (vertexSource fragmentSource : String) :
    Except JsError (Option Unit) × List Event × List String :=
  let vs := createShader host .vertex vertexSource
  let fs := createShader host .fragment fragmentSource
  match vs.1, fs.1 with
  | some _, some _ =>
    match host.createProgramResult with
    | none =>
      (.error (.nullMisuse "attachShader"),
       vs.2.1 ++ fs.2.1 ++ [.evCreateProgram], vs.2.2 ++ fs.2.2)
    | some _ =>
      if host.linkStatus then
        (.ok (some ()),
         vs.2.1 ++ fs.2.1 ++
           [.evCreateProgram, .evAttachShader .vertex, .evAttachShader .fragment,
            .evLinkProgram],
         vs.2.2 ++ fs.2.2)
      else
        (.ok none,
         vs.2.1 ++ fs.2.1 ++
           [.evCreateProgram, .evAttachShader .vertex, .evAttachShader .fragment,
            .evLinkProgram],
         vs.2.2 ++ fs.2.2 ++
           ["Unable to initialize the shader program: " ++ host.programInfoLog])
  | _, _ => (.ok none, vs.2.1 ++ fs.2.1, vs.2.2 ++ fs.2.2)

/-- Embedding of the canvas style configuration
(`src/fingerprint.ts:90-93`): assign the four CSS style properties; the
drawing-buffer fields are not touched. -/
def configureStyle (c : Canvas) : Canvas :=
  { c with stylePosition := "absolute", styleTop := "-9999px",
           styleWidth := "1px", styleHeight := "1px" }

/-- The fixed triangle vertex list of `src/fingerprint.ts:107-114` (all six
float components are exact small integers). -/
def vertices : List Int := [0, 1, -1, -1, 1, -1]

/-- Embedding of `createDeviceFingerprint` (`src/fingerprint.ts:81-163`):
create a canvas, request a `"webgl"` context (throwing if `null`), set the
four styles, build the shader program (throwing if `null`), then buffer
setup, attribute and uniform binding, clear, draw, readback into a
`width*height*4`-byte buffer, SHA-256 digest, and hex encoding.  The
results of `createProgram`, `createBuffer` and `getUniformLocation` are
used without a null check (`!` assertions), so a `null` there is modelled
as a fault at the consuming call. -/
def createDeviceFingerprint (host : Host) : RunResult :=
  let ev0 : List Event := [.evCreateElementCanvas, .evGetContext "webgl"]
  if host.webglSupported = false then
    ⟨.error (.thrown "WebGL is not supported"), ev0, []⟩
  else
    let canvas := configureStyle (createElementCanvas host)
    let sp := createShaderProgram host vertexShaderSource fragmentShaderSource
    match sp.1 with
    | .error e => ⟨.error e, ev0 ++ sp.2.1, sp.2.2⟩
    | .ok none =>
      ⟨.error (.thrown "Shader program could not be initialized"), ev0 ++ sp.2.1, sp.2.2⟩
    | .ok (some _) =>
      let ev1 := sp.2.1 ++ [.evUseProgram, .evCreateBuffer]
      match host.createBufferResult with
      | none => ⟨.error (.nullMisuse "bindBuffer"), ev0 ++ ev1, sp.2.2⟩
      | some _ =>
        let ev2 := ev1 ++
          [.evBindBuffer, .evBufferData vertices,
           .evGetAttribLocation "aVertexPosition",
           .evEnableVertexAttribArray host.attribLocation,
           .evVertexAttribPointer, .evGetUniformLocation "uColor"]
        match host.uniformLocationResult with
        | none => ⟨.error (.nullMisuse "uniform4f"), ev0 ++ ev2, sp.2.2⟩
        | some _ =>
          let w := canvas.width
          let h := canvas.height
          let pixels := host.readPixelsFill 0 0 w h (List.replicate (w * h * 4) 0)
          let hashHex := hexEncode (SHA256.digest pixels)
          ⟨.ok hashHex,
           ev0 ++ ev2 ++
             [.evUniform4f 1 1 0 1, .evClearColor 0 0 0 1, .evClear,
              .evDrawArrays TRIANGLES 0 3, .evNewPixelBuffer (w * h * 4),
              .evReadPixels 0 0 w h RGBA UNSIGNED_BYTE,
              .evDigest "SHA-256" pixels],
           sp.2.2⟩

/-- Embedding of the top-level usage (`src/fingerprint.ts:166-168`): on a
fulfilled promise, log the fingerprint to the console sink. -/
def main (host : Host) : RunResult × List String :=
  let r := createDeviceFingerprint host
  match r.result with
  | .ok fp => (r, ["Device fingerprint: " ++ fp])
  | .error _ => (r, [])

end Fingerprint

/-! ## Embedding of `src/fp.js`

The untyped source is embedded separately so it can be compared with the
typed one.  At runtime TypeScript's non-null assertions (`!`) are erased,
so the unchecked uses of `createProgram`, `createBuffer` and
`getUniformLocation` results are modelled the same way in both. -/

namespace Fp

/-- The vertex shader source constant of `src/fp.js`. -/
def vertexShaderSource : String :=
  "\n  attribute vec2 aVertexPosition;\n  void main() \x7b\n    gl_Position = vec4(aVertexPosition, 0, 1);\n  \x7d\n"

/-- The fragment shader source constant of `src/fp.js`. -/
def fragmentShaderSource : String :=
  "\n  precision mediump float;\n  uniform vec4 uColor;\n  void main() \x7b\n    gl_FragColor = uColor;\n  \x7d\n"

/-- Embedding of `createShader` (`src/fp.js:16-32`), exactly as in the typed
source: null test on the created shader, submit source, compile, check the
compile-status flag, and on failure log, delete, and return `null`. -/
def createShader (host : Host) (t : ShaderStage) (source : String) :
    Option ShaderStage × List Event × List String :=
  if host.createShaderOk t = false then
    (none, [.evCreateShader t], ["Error creating shader."])
  else if host.compileStatus t then
    (some t, [.evCreateShader t, .evShaderSource t source, .evCompileShader t], [])
  else
    (none,
     [.evCreateShader t, .evShaderSource t source, .evCompileShader t, .evDeleteShader t],
     ["An error occurred compiling the shaders: " ++ host.shaderInfoLog t])

/-- Embedding of `createShaderProgram` (`src/fp.js:34-52`): as in the typed
source; the program returned by `createProgram` is used without a null
check, so a `null` program is modelled as a fault at `attachShader`. -/
def createShaderProgram (host : Host) (vertexSource fragmentSource : String) :
    Except JsError (Option Unit) × List Event × List String :=
  let vs := createShader host .vertex vertexSource
  let fs := createShader host .fragment fragmentSource
  match vs.1, fs.1 with
  | some _, some _ =>
    match host.createProgramResult with
    | none =>
      (.error (.nullMisuse "attachShader"),
       vs.2.1 ++ fs.2.1 ++ [.evCreateProgram], vs.2.2 ++ fs.2.2)
    | some _ =>
      if host.linkStatus then
        (.ok (some ()),
         vs.2.1 ++ fs.2.1 ++
           [.evCreateProgram, .evAttachShader .vertex, .evAttachShader .fragment,
            .evLinkProgram],
         vs.2.2 ++ fs.2.2)
      else
        (.ok none,
         vs.2.1 ++ fs.2.1 ++
           [.evCreateProgram, .evAttachShader .vertex, .evAttachShader .fragment,
            .evLinkProgram],
         vs.2.2 ++ fs.2.2 ++
           ["Unable to initialize the shader program: " ++ host.programInfoLog])
  | _, _ => (.ok none, vs.2.1 ++ fs.2.1, vs.2.2 ++ fs.2.2)

/-- Embedding of the canvas style configuration (`src/fp.js:61-64`). -/
def configureStyle (c : Canvas) : Canvas :=
  { c with stylePosition := "absolute", styleTop := "-9999px",
           styleWidth := "1px", styleHeight := "1px" }

/-- The fixed triangle vertex list of `src/fp.js:76-83`. -/
def vertices : List Int := [0, 1, -1, -1, 1, -1]

/-- Embedding of `createDeviceFingerprint` (`src/fp.js:54-121`): the same
straight-line procedure as the typed source. -/
def createDeviceFingerprint (host : Host) : RunResult :=
  let ev0 : List Event := [.evCreateElementCanvas, .evGetContext "webgl"]
  if host.webglSupported = false then
    ⟨.error (.thrown "WebGL is not supported"), ev0, []⟩
  else
    let canvas := configureStyle (createElementCanvas host)
    let sp := createShaderProgram host vertexShaderSource fragmentShaderSource
    match sp.1 with
    | .error e => ⟨.error e, ev0 ++ sp.2.1, sp.2.2⟩
    | .ok none =>
      ⟨.error (.thrown "Shader program could not be initialized"), ev0 ++ sp.2.1, sp.2.2⟩
    | .ok (some _) =>
      let ev1 := sp.2.1 ++ [.evUseProgram, .evCreateBuffer]
      match host.createBufferResult with
      | none => ⟨.error (.nullMisuse "bindBuffer"), ev0 ++ ev1, sp.2.2⟩
      | some _ =>
        let ev2 := ev1 ++
          [.evBindBuffer, .evBufferData vertices,
           .evGetAttribLocation "aVertexPosition",
           .evEnableVertexAttribArray host.attribLocation,
           .evVertexAttribPointer, .evGetUniformLocation "uColor"]
        match host.uniformLocationResult with
        | none => ⟨.error (.nullMisuse "uniform4f"), ev0 ++ ev2, sp.2.2⟩
        | some _ =>
          let w := canvas.width
          let h := canvas.height
          let pixels := host.readPixelsFill 0 0 w h (List.replicate (w * h * 4) 0)
          let hashHex := hexEncode (SHA256.digest pixels)
          ⟨.ok hashHex,
           ev0 ++ ev2 ++
             [.evUniform4f 1 1 0 1, .evClearColor 0 0 0 1, .evClear,
              .evDrawArrays TRIANGLES 0 3, .evNewPixelBuffer (w * h * 4),
              .evReadPixels 0 0 w h RGBA UNSIGNED_BYTE,
              .evDigest "SHA-256" pixels],
           sp.2.2⟩

/-- Embedding of the top-level usage (`src/fp.js:123-126`): on a fulfilled
promise, write the fingerprint into the text content of the page element
with id `"fingerprint"` (the display sink), modelled as the written
element-id/text pair. -/
def main (host : Host) : RunResult × Option (String × String) :=
  let r := createDeviceFingerprint host
  match r.result with
  | .ok fp => (r, some ("fingerprint", fp))
  | .error _ => (r, none)

end Fp

/-! ## Derived notions used by the theorems -/

/-- The bytes the host leaves in the readback buffer when asked to read the
full surface from the origin into a fresh `width*height*4`-byte buffer —
the pixel data the successful run digests. -/
def readbackOf (host : Host) : List Nat :=
  host.readPixelsFill 0 0 host.canvasWidth host.canvasHeight
    (List.replicate (host.canvasWidth * host.canvasHeight * 4) 0)

/-- The all-success mock host of the end-to-end scenario: a 1×1 surface,
every host call succeeds, and the readback leaves the 4-byte buffer all
zero. -/
def mockHost : Host where
  canvasWidth := 1
  canvasHeight := 1
  webglSupported := true
  createShaderOk := fun _ => true
  compileStatus := fun _ => true
  shaderInfoLog := fun _ => ""
  createProgramResult := some ()
  linkStatus := true
  programInfoLog := ""
  createBufferResult := some ()
  attribLocation := 0
  uniformLocationResult := some ()
  readPixelsFill := fun _ _ w h _ => List.replicate (w * h * 4) 0

/-- The published SHA-256 digest of four zero bytes, in lowercase hex. -/
def zeroHash : String :=
  "df3f619804a92fdb4057192dc43dd748ea778adc52bc498ce80524c014b81119"

/-- Whether an event is the allocation of the readback pixel buffer. -/
def Event.isNewPixelBuffer : Event → Bool
  | .evNewPixelBuffer _ => true
  | _ => false

/-- The full host-call trace of a successful run, as established below: every
call of the straight-line procedure, in source order, each exactly once. -/
def successEvents (host : Host) : List Event :=
  [.evCreateElementCanvas, .evGetContext "webgl",
   .evCreateShader .vertex, .evShaderSource .vertex Fingerprint.vertexShaderSource,
   .evCompileShader .vertex,
   .evCreateShader .fragment, .evShaderSource .fragment Fingerprint.fragmentShaderSource,
   .evCompileShader .fragment,
   .evCreateProgram, .evAttachShader .vertex, .evAttachShader .fragment, .evLinkProgram,
   .evUseProgram, .evCreateBuffer, .evBindBuffer, .evBufferData Fingerprint.vertices,
   .evGetAttribLocation "aVertexPosition",
   .evEnableVertexAttribArray host.attribLocation,
   .evVertexAttribPointer, .evGetUniformLocation "uColor",
   .evUniform4f 1 1 0 1, .evClearColor 0 0 0 1, .evClear,
   .evDrawArrays TRIANGLES 0 3,
   .evNewPixelBuffer (host.canvasWidth * host.canvasHeight * 4),
   .evReadPixels 0 0 host.canvasWidth host.canvasHeight RGBA UNSIGNED_BYTE,
   .evDigest "SHA-256" (readbackOf host)]

/-- A freshly created canvas element as a real browser yields it: the HTML
default drawing-buffer size of 300×150 and empty styles (the platform's
documented default for `document.createElement("canvas")`, not code under
`src/`). -/
def browserDefaultCanvas : Canvas :=
  ⟨300, 150, "", "", "", ""⟩

/-- The mock host with no WebGL context available. -/
def noWebglHost : Host :=
  { mockHost with webglSupported := false }

/-- The mock host whose vertex-stage compilation fails (with a fixed info
log), the fragment stage still compiling. -/
def badCompileVertexHost : Host :=
  { mockHost with
      compileStatus := fun t => match t with | .vertex => false | .fragment => true,
      shaderInfoLog := fun _ => "syntax error" }

/-- The mock host whose fragment-stage compilation fails. -/
def badCompileFragmentHost : Host :=
  { mockHost with
      compileStatus := fun t => match t with | .vertex => true | .fragment => false }

/-- The mock host whose program link fails. -/
def badLinkHost : Host :=
  { mockHost with linkStatus := false, programInfoLog := "link error" }

/-- The mock host whose `createProgram` returns `null`. -/
def noProgramHost : Host :=
  { mockHost with createProgramResult := none }

/-- The mock host whose `createBuffer` returns `null`. -/
def noBufferHost : Host :=
  { mockHost with createBufferResult := none }

/-- The mock host whose `getUniformLocation` returns `null`. -/
def noUniformHost : Host :=
  { mockHost with uniformLocationResult := none }

/-! ## Supporting lemmas -/

set_option maxRecDepth 40000

/-- Every byte below 256 renders as exactly two lowercase hex characters. -/
lemma byteToHex_spec :
    ∀ b, b < 256 → (byteToHex b).length = 2 ∧ (byteToHex b).data.all isLowerHexChar = true := by
  decide

/-- A SHA-256 digest is 32 bytes long. -/
lemma digest_length (msg : List Nat) : (SHA256.digest msg).length = 32 := by
  simp [SHA256.digest, SHA256.regsBytes, SHA256.wordBytes]

/-- Every SHA-256 digest byte is below 256. -/
lemma digest_lt (msg : List Nat) : ∀ b ∈ SHA256.digest msg, b < 256 := by
  intro b hb
  simp [SHA256.digest, SHA256.regsBytes, SHA256.wordBytes] at hb
  rcases hb with h|h|h|h|h|h|h|h|h|h|h|h|h|h|h|h|h|h|h|h|h|h|h|h|h|h|h|h|h|h|h|h <;> omega

/-- Hex encoding yields two characters per byte. -/
lemma hexEncode_length (bytes : List Nat) (hb : ∀ b ∈ bytes, b < 256) :
    (hexEncode bytes).length = 2 * bytes.length := by
  induction bytes with
  | nil => simp [hexEncode, joinAll]
  | cons x xs ih =>
    simp only [hexEncode, List.map_cons, joinAll, String.length_append]
    rw [(byteToHex_spec x (hb x (by simp))).1]
    have := ih (fun b h => hb b (by simp [h]))
    simp [hexEncode] at this
    simp [this]
    ring

/-- Hex encoding yields only lowercase hex characters. -/
lemma hexEncode_lower (bytes : List Nat) (hb : ∀ b ∈ bytes, b < 256) :
    (hexEncode bytes).data.all isLowerHexChar = true := by
  induction bytes with
  | nil => simp [hexEncode, joinAll]
  | cons x xs ih =>
    simp only [hexEncode, List.map_cons, joinAll]
    rw [String.data_append, List.all_append]
    have h1 := (byteToHex_spec x (hb x (by simp))).2
    have h2 := ih (fun b h => hb b (by simp [h]))
    simp [hexEncode] at h2
    simp [h1]
    exact h2

/-- Characterisation of a successful run: if the returned promise fulfils,
the whole outcome is the hex digest of the readback bytes, the full call
trace in source order, and no console diagnostics. -/
lemma run_ok_full (host : Host) (s : String)
    (h : (Fingerprint.createDeviceFingerprint host).result = Except.ok s) :
    Fingerprint.createDeviceFingerprint host =
      ⟨Except.ok (hexEncode (SHA256.digest (readbackOf host))), successEvents host, []⟩ := by
  cases hw : host.webglSupported <;>
  cases hcv : host.createShaderOk ShaderStage.vertex <;>
  cases hcf : host.createShaderOk ShaderStage.fragment <;>
  cases hsv : host.compileStatus ShaderStage.vertex <;>
  cases hsf : host.compileStatus ShaderStage.fragment <;>
  cases hp : host.createProgramResult <;>
  cases hl : host.linkStatus <;>
  cases hb : host.createBufferResult <;>
  cases hu : host.uniformLocationResult <;>
  simp_all [Fingerprint.createDeviceFingerprint, Fingerprint.createShaderProgram,
    Fingerprint.createShader, Fingerprint.configureStyle, createElementCanvas,
    successEvents, readbackOf]

/-- On a successful run the returned string is the hex digest of the
readback bytes. -/
lemma run_ok_result (host : Host) (s : String)
    (h : (Fingerprint.createDeviceFingerprint host).result = Except.ok s) :
    s = hexEncode (SHA256.digest (readbackOf host)) := by
  have := run_ok_full host s h
  rw [this] at h
  simpa using h.symm

/-- The mock run fulfils with the published digest of four zero bytes. -/
lemma mockRun_result :
    (Fingerprint.createDeviceFingerprint mockHost).result = Except.ok zeroHash := by
  have h1 : (Fingerprint.createDeviceFingerprint mockHost).result
      = Except.ok (hexEncode (SHA256.digest (List.replicate 4 0))) := by decide
  have h2 : hexEncode (SHA256.digest (List.replicate 4 0)) = zeroHash := by decide
  rw [h1, h2]

/-! ## Claim theorems -/

/-- C1: for every successful run of `createDeviceFingerprint`, the returned
string is the lowercase hexadecimal encoding of the 32-byte SHA-256 digest
of the readback pixel buffer — each digest byte becomes exactly two
zero-padded lowercase hex characters, concatenated in buffer order with no
separators — so the result is 64 characters of lowercase hex. -/
theorem fingerprint_success_hex (host : Host) (s : String)
    (h : (Fingerprint.createDeviceFingerprint host).result = Except.ok s) :
    s = hexEncode (SHA256.digest (readbackOf host)) ∧
    s.length = 64 ∧ s.data.all isLowerHexChar = true := by
  have hs := run_ok_result host s h
  refine ⟨hs, ?_, ?_⟩
  · rw [hs, hexEncode_length _ (digest_lt _), digest_length]
  · rw [hs]
    exact hexEncode_lower _ (digest_lt _)

/-- C1 witness: the mock run's output instantiates the success-shape
theorem at a concrete host. -/
theorem fingerprint_success_hex_witness :
    zeroHash = hexEncode (SHA256.digest (readbackOf mockHost)) ∧
    zeroHash.length = 64 ∧ zeroHash.data.all isLowerHexChar = true :=
  fingerprint_success_hex mockHost zeroHash mockRun_result

/-- C2: on the all-success mock host with a 1×1 surface whose readback
leaves the 4-byte buffer all zero, `createDeviceFingerprint` returns
exactly the precomputed 64-character lowercase hex SHA-256 digest of four
zero bytes. -/
theorem fingerprint_mock_zero :
    (Fingerprint.createDeviceFingerprint mockHost).result =
      Except.ok "df3f619804a92fdb4057192dc43dd748ea778adc52bc498ce80524c014b81119" :=
  mockRun_result

/-- C3: two invocations of `createDeviceFingerprint` against hosts with the
same surface dimensions and the same readback behaviour that both succeed
return identical fingerprint strings. -/
theorem fingerprint_deterministic (h1 h2 : Host) (s1 s2 : String)
    (hw : h1.canvasWidth = h2.canvasWidth) (hh : h1.canvasHeight = h2.canvasHeight)
    (hr : h1.readPixelsFill = h2.readPixelsFill)
    (e1 : (Fingerprint.createDeviceFingerprint h1).result = Except.ok s1)
    (e2 : (Fingerprint.createDeviceFingerprint h2).result = Except.ok s2) :
    s1 = s2 := by
  rw [run_ok_result h1 s1 e1, run_ok_result h2 s2 e2, readbackOf, readbackOf, hw, hh, hr]

/-- C3 witness: determinism instantiated at the mock host twice. -/
theorem fingerprint_deterministic_witness : zeroHash = zeroHash :=
  fingerprint_deterministic mockHost mockHost zeroHash zeroHash rfl rfl rfl
    mockRun_result mockRun_result

/-- C4: if the host returns no WebGL context, `createDeviceFingerprint`
rejects with the environment-unsupported error `"WebGL is not supported"`,
performs no shader, draw, readback, or hash call, and requests exactly one
context — the `"webgl"` one, with no fallback to a different API version. -/
theorem fingerprint_no_webgl (host : Host) (hw : host.webglSupported = false) :
    (Fingerprint.createDeviceFingerprint host).result =
      Except.error (.thrown "WebGL is not supported") ∧
    (Fingerprint.createDeviceFingerprint host).events.all
      (fun e => !e.isShaderCall && !e.isDraw && !e.isReadPixels && !e.isDigest) = true ∧
    (Fingerprint.createDeviceFingerprint host).events.filter Event.isGetContext =
      [.evGetContext "webgl"] := by
  simp [Fingerprint.createDeviceFingerprint, hw, Event.isShaderCall, Event.isDraw,
    Event.isReadPixels, Event.isDigest, Event.isGetContext]

/-- C4 witness: the no-WebGL behaviour at a concrete host. -/
theorem fingerprint_no_webgl_witness :
    (Fingerprint.createDeviceFingerprint noWebglHost).result =
      Except.error (.thrown "WebGL is not supported") ∧
    (Fingerprint.createDeviceFingerprint noWebglHost).events.all
      (fun e => !e.isShaderCall && !e.isDraw && !e.isReadPixels && !e.isDigest) = true ∧
    (Fingerprint.createDeviceFingerprint noWebglHost).events.filter Event.isGetContext =
      [.evGetContext "webgl"] :=
  fingerprint_no_webgl noWebglHost rfl

/-- C5: if either shader stage fails to compile, or the program handle is
obtained but linking fails, `createDeviceFingerprint` rejects with the one
pipeline-init error `"Shader program could not be initialized"` — the same
error constant for every failing stage — and never performs the readback or
digest call. -/
theorem fingerprint_pipeline_fail (host : Host)
    (hw : host.webglSupported = true)
    (hcv : host.createShaderOk .vertex = true)
    (hcf : host.createShaderOk .fragment = true)
    (hfail : host.compileStatus .vertex = false ∨ host.compileStatus .fragment = false ∨
             (host.createProgramResult = some () ∧ host.linkStatus = false)) :
    (Fingerprint.createDeviceFingerprint host).result =
      Except.error (.thrown "Shader program could not be initialized") ∧
    (Fingerprint.createDeviceFingerprint host).events.all
      (fun e => !e.isReadPixels && !e.isDigest) = true := by
  rcases hfail with h | h | ⟨hp, hl⟩ <;>
  cases hsv : host.compileStatus ShaderStage.vertex <;>
  cases hsf : host.compileStatus ShaderStage.fragment <;>
  simp_all [Fingerprint.createDeviceFingerprint, Fingerprint.createShaderProgram,
    Fingerprint.createShader, Event.isReadPixels, Event.isDigest]

/-- C5 witness: the pipeline-failure behaviour at a host whose vertex stage
fails to compile. -/
theorem fingerprint_pipeline_fail_witness :
    (Fingerprint.createDeviceFingerprint badCompileVertexHost).result =
      Except.error (.thrown "Shader program could not be initialized") ∧
    (Fingerprint.createDeviceFingerprint badCompileVertexHost).events.all
      (fun e => !e.isReadPixels && !e.isDigest) = true :=
  fingerprint_pipeline_fail badCompileVertexHost rfl rfl rfl (Or.inl rfl)

/-- C6: `createShader` submits the source, compiles, and checks the
compile-status flag — on success returning the shader after exactly those
calls, on failure emitting the stage-specific diagnostic (the stage's info
log) and returning null with no retry (one compile call in the trace); and
`createShaderProgram`, when both stages compile but the link-status flag is
false, attaches both stages, links once, emits the link diagnostic, and
returns null with no retry. -/
theorem shader_helper_failure_modes (host : Host) (t : ShaderStage) (src v f : String) :
    (host.createShaderOk t = true → host.compileStatus t = true →
      Fingerprint.createShader host t src =
        (some t, [.evCreateShader t, .evShaderSource t src, .evCompileShader t], [])) ∧
    (host.createShaderOk t = true → host.compileStatus t = false →
      Fingerprint.createShader host t src =
        (none,
         [.evCreateShader t, .evShaderSource t src, .evCompileShader t, .evDeleteShader t],
         ["An error occurred compiling the shaders: " ++ host.shaderInfoLog t])) ∧
    (host.createShaderOk .vertex = true → host.createShaderOk .fragment = true →
     host.compileStatus .vertex = true → host.compileStatus .fragment = true →
     host.createProgramResult = some () → host.linkStatus = false →
      Fingerprint.createShaderProgram host v f =
        (Except.ok none,
         [.evCreateShader .vertex, .evShaderSource .vertex v, .evCompileShader .vertex,
          .evCreateShader .fragment, .evShaderSource .fragment f, .evCompileShader .fragment,
          .evCreateProgram, .evAttachShader .vertex, .evAttachShader .fragment, .evLinkProgram],
         ["Unable to initialize the shader program: " ++ host.programInfoLog])) := by
  refine ⟨fun h1 h2 => ?_, fun h1 h2 => ?_, fun h1 h2 h3 h4 h5 h6 => ?_⟩ <;>
  simp_all [Fingerprint.createShader, Fingerprint.createShaderProgram]

/-- C6 witness: the three helper behaviours, each at a concrete host. -/
theorem shader_helper_failure_modes_witness :
    Fingerprint.createShader mockHost .vertex "src" =
      (some .vertex, [.evCreateShader .vertex, .evShaderSource .vertex "src",
                      .evCompileShader .vertex], []) ∧
    Fingerprint.createShader badCompileVertexHost .vertex "src" =
      (none,
       [.evCreateShader .vertex, .evShaderSource .vertex "src", .evCompileShader .vertex,
        .evDeleteShader .vertex],
       ["An error occurred compiling the shaders: syntax error"]) ∧
    Fingerprint.createShaderProgram badLinkHost "v" "f" =
      (Except.ok none,
       [.evCreateShader .vertex, .evShaderSource .vertex "v", .evCompileShader .vertex,
        .evCreateShader .fragment, .evShaderSource .fragment "f", .evCompileShader .fragment,
        .evCreateProgram, .evAttachShader .vertex, .evAttachShader .fragment, .evLinkProgram],
       ["Unable to initialize the shader program: link error"]) :=
  ⟨(shader_helper_failure_modes mockHost .vertex "src" "v" "f").1 rfl rfl,
   (shader_helper_failure_modes badCompileVertexHost .vertex "src" "v" "f").2.1 rfl rfl,
   (shader_helper_failure_modes badLinkHost .vertex "src" "v" "f").2.2 rfl rfl rfl rfl rfl rfl⟩

/-- C7: every successful run allocates the readback buffer with length
exactly `width * height * 4` (once), performs exactly one pixel read, from
the origin over the full surface extent in RGBA/unsigned-byte format, and
consumes the readback bytes in exactly one digest call. -/
theorem fingerprint_readback_shape (host : Host) (s : String)
    (h : (Fingerprint.createDeviceFingerprint host).result = Except.ok s) :
    (Fingerprint.createDeviceFingerprint host).events.countP Event.isNewPixelBuffer = 1 ∧
    Event.evNewPixelBuffer (host.canvasWidth * host.canvasHeight * 4) ∈
      (Fingerprint.createDeviceFingerprint host).events ∧
    (Fingerprint.createDeviceFingerprint host).events.countP Event.isReadPixels = 1 ∧
    Event.evReadPixels 0 0 host.canvasWidth host.canvasHeight RGBA UNSIGNED_BYTE ∈
      (Fingerprint.createDeviceFingerprint host).events ∧
    (Fingerprint.createDeviceFingerprint host).events.countP Event.isDigest = 1 ∧
    Event.evDigest "SHA-256" (readbackOf host) ∈
      (Fingerprint.createDeviceFingerprint host).events := by
  rw [run_ok_full host s h]
  refine ⟨?_, ?_, ?_, ?_, ?_, ?_⟩ <;>
  simp [successEvents, Event.isNewPixelBuffer, Event.isReadPixels, Event.isDigest]

/-- C7 witness: the readback shape at the mock host. -/
theorem fingerprint_readback_shape_witness :
    (Fingerprint.createDeviceFingerprint mockHost).events.countP Event.isNewPixelBuffer = 1 ∧
    Event.evNewPixelBuffer (mockHost.canvasWidth * mockHost.canvasHeight * 4) ∈
      (Fingerprint.createDeviceFingerprint mockHost).events ∧
    (Fingerprint.createDeviceFingerprint mockHost).events.countP Event.isReadPixels = 1 ∧
    Event.evReadPixels 0 0 mockHost.canvasWidth mockHost.canvasHeight RGBA UNSIGNED_BYTE ∈
      (Fingerprint.createDeviceFingerprint mockHost).events ∧
    (Fingerprint.createDeviceFingerprint mockHost).events.countP Event.isDigest = 1 ∧
    Event.evDigest "SHA-256" (readbackOf mockHost) ∈
      (Fingerprint.createDeviceFingerprint mockHost).events :=
  fingerprint_readback_shape mockHost zeroHash mockRun_result

/-- On a fulfilled promise or a rejection alike, the run component of the
typed source's top-level usage is the run itself. -/
lemma Fingerprint_main_fst (host : Host) :
    (Fingerprint.main host).1 = Fingerprint.createDeviceFingerprint host := by
  unfold Fingerprint.main
  cases h : (Fingerprint.createDeviceFingerprint host).result <;> simp [h]

/-- On a fulfilled promise or a rejection alike, the run component of the
untyped source's top-level usage is the run itself. -/
lemma Fp_main_fst (host : Host) :
    (Fp.main host).1 = Fp.createDeviceFingerprint host := by
  unfold Fp.main
  cases h : (Fp.createDeviceFingerprint host).result <;> simp [h]

/-- C8: the typed (`fingerprint.ts`) and untyped (`fp.js`)
`createDeviceFingerprint` are the same procedure — on any host behaviour
they produce identical outcomes, traces, and diagnostics — and the two
top-level usages run that identical procedure, differing only in their
output sink. -/
theorem ts_js_same_procedure :
    ∀ host : Host,
      Fingerprint.createDeviceFingerprint host = Fp.createDeviceFingerprint host ∧
      (Fingerprint.main host).1 = (Fp.main host).1 :=
  fun host => ⟨rfl, by rw [Fingerprint_main_fst, Fp_main_fst]; rfl⟩

/-- C9: assigning the four CSS style properties leaves the drawing-buffer
dimensions unchanged (for the browser-default canvas, still 300×150 while
the CSS size reads 1px), and a successful run sizes the readback buffer and
the read extent from the drawing-buffer dimensions, not the CSS size. -/
theorem style_config_frame_effect :
    (∀ c : Canvas,
      (Fingerprint.configureStyle c).width = c.width ∧
      (Fingerprint.configureStyle c).height = c.height ∧
      (Fingerprint.configureStyle c).styleWidth = "1px" ∧
      (Fingerprint.configureStyle c).styleHeight = "1px") ∧
    (Fingerprint.configureStyle browserDefaultCanvas).width = 300 ∧
    (Fingerprint.configureStyle browserDefaultCanvas).height = 150 ∧
    (∀ (host : Host) (s : String),
      (Fingerprint.createDeviceFingerprint host).result = Except.ok s →
      Event.evNewPixelBuffer (host.canvasWidth * host.canvasHeight * 4) ∈
        (Fingerprint.createDeviceFingerprint host).events ∧
      Event.evReadPixels 0 0 host.canvasWidth host.canvasHeight RGBA UNSIGNED_BYTE ∈
        (Fingerprint.createDeviceFingerprint host).events) := by
  refine ⟨fun c => ⟨rfl, rfl, rfl, rfl⟩, rfl, rfl, fun host s h => ?_⟩
  rw [run_ok_full host s h]
  constructor <;> simp [successEvents]

/-- C9 witness: the style-set default canvas keeps 300×150 beside a 1px CSS
size, and the mock run reads using the drawing-buffer dimensions. -/
theorem style_config_frame_effect_witness :
    ((Fingerprint.configureStyle browserDefaultCanvas).width = 300 ∧
     (Fingerprint.configureStyle browserDefaultCanvas).styleWidth = "1px") ∧
    (Event.evNewPixelBuffer (mockHost.canvasWidth * mockHost.canvasHeight * 4) ∈
      (Fingerprint.createDeviceFingerprint mockHost).events ∧
     Event.evReadPixels 0 0 mockHost.canvasWidth mockHost.canvasHeight RGBA UNSIGNED_BYTE ∈
      (Fingerprint.createDeviceFingerprint mockHost).events) :=
  ⟨⟨style_config_frame_effect.2.1, (style_config_frame_effect.1 browserDefaultCanvas).2.2.1⟩,
   (style_config_frame_effect.2.2.2 mockHost zeroHash mockRun_result).1,
   (style_config_frame_effect.2.2.2 mockHost zeroHash mockRun_result).2⟩

/-- C10: when the three unchecked host calls — `createProgram`,
`createBuffer`, `getUniformLocation` — return non-null values, no run can
fault on a null handle; and each of the three, returning null on an
otherwise all-success host, faults at precisely its unchecked consuming
call. -/
theorem fingerprint_null_safety :
    (∀ host : Host,
      host.createProgramResult = some () →
      host.createBufferResult = some () →
      host.uniformLocationResult = some () →
      ∀ site, (Fingerprint.createDeviceFingerprint host).result ≠
        Except.error (.nullMisuse site)) ∧
    (Fingerprint.createDeviceFingerprint noProgramHost).result =
      Except.error (.nullMisuse "attachShader") ∧
    (Fingerprint.createDeviceFingerprint noBufferHost).result =
      Except.error (.nullMisuse "bindBuffer") ∧
    (Fingerprint.createDeviceFingerprint noUniformHost).result =
      Except.error (.nullMisuse "uniform4f") := by
  refine ⟨?_, by decide, by decide, by decide⟩
  intro host hp hb hu site
  cases hw : host.webglSupported <;>
  cases hcv : host.createShaderOk ShaderStage.vertex <;>
  cases hcf : host.createShaderOk ShaderStage.fragment <;>
  cases hsv : host.compileStatus ShaderStage.vertex <;>
  cases hsf : host.compileStatus ShaderStage.fragment <;>
  cases hl : host.linkStatus <;>
  simp_all [Fingerprint.createDeviceFingerprint, Fingerprint.createShaderProgram,
    Fingerprint.createShader]

/-- C10 witness: null-fault freedom instantiated at the mock host. -/
theorem fingerprint_null_safety_witness :
    (Fingerprint.createDeviceFingerprint mockHost).result ≠
      Except.error (.nullMisuse "uniform4f") :=
  fingerprint_null_safety.1 mockHost rfl rfl rfl "uniform4f"
